import Mathlib

/-
  Shallow embedding of the two scripts of the repository:
    scripts/test_client.py   (the protocol probe)
    scripts/verify_config.py (the configuration auditor)
  Python dictionaries parsed from JSON lines are modelled by the `Json`
  inductive; Python operations that can raise are modelled as
  Option-valued functions where `none` means an exception was raised.
-/

namespace McpHarness

/-- JSON values as produced by json.loads on a response line. -/
inductive Json where
  | null
  | bool (b : Bool)
  | num (n : Int)
  | str (s : String)
  | arr (xs : List Json)
  | obj (kvs : List (String × Json))

mutual

/-- Structural equality of JSON values. -/
def Json.beq : Json → Json → Bool
  | .null, .null => true
  | .bool a, .bool b => a == b
  | .num a, .num b => a == b
  | .str a, .str b => a == b
  | .arr a, .arr b => Json.beqList a b
  | .obj a, .obj b => Json.beqFields a b
  | _, _ => false

/-- Structural equality of JSON arrays. -/
def Json.beqList : List Json → List Json → Bool
  | [], [] => true
  | a :: as, b :: bs => Json.beq a b && Json.beqList as bs
  | _, _ => false

/-- Structural equality of JSON object fields. -/
def Json.beqFields : List (String × Json) → List (String × Json) → Bool
  | [], [] => true
  | (k1, v1) :: as, (k2, v2) :: bs => k1 == k2 && Json.beq v1 v2 && Json.beqFields as bs
  | _, _ => false

end

instance : BEq Json := ⟨Json.beq⟩

/-- Python truthiness of a value parsed from JSON. -/
def Json.truthy : Json → Bool
  | .null => false
  | .bool b => b
  | .num n => n != 0
  | .str s => !(s == "")
  | .arr xs => !xs.isEmpty
  | .obj kvs => !kvs.isEmpty

/-- Python membership test `k in j`: some answer for containers, none where
it raises TypeError (numbers, booleans, None). -/
def pyContains (j : Json) (k : String) : Option Bool :=
  match j with
  | .obj kvs => some (kvs.any (fun kv => kv.fst == k))
  | .arr xs => some (xs.any (fun x => x == Json.str k))
  | .str s => some (decide (List.IsInfix k.toList s.toList))
  | _ => none

/-- Python subscription `j[k]` with a string key: none where it raises
(missing key, or a non-dictionary value). -/
def pyIndexS (j : Json) (k : String) : Option Json :=
  match j with
  | .obj kvs => kvs.lookup k
  | _ => none

/-- Python subscription `j[i]` with a non-negative integer index: none where
it raises (out of range, or a non-indexable value). -/
def pyIndexN (j : Json) (i : Nat) : Option Json :=
  match j with
  | .arr xs => xs.get? i
  | .str s => (s.data.get? i).map (fun c => Json.str (String.mk [c]))
  | _ => none

/-- Python `len(j)`: none where it raises TypeError. -/
def pyLen : Json → Option Nat
  | .str s => some s.length
  | .arr xs => some xs.length
  | .obj kvs => some kvs.length
  | _ => none

/-- Python `j.get(k)` on a dictionary: outer none models the AttributeError
raised on a non-dictionary, the inner Option is the result of `.get`. -/
def pyGet (j : Json) (k : String) : Option (Option Json) :=
  match j with
  | .obj kvs => some (kvs.lookup k)
  | _ => none

mutual

/-- Python `repr` of a value parsed from JSON. -/
def pyRepr : Json → String
  | .null => "None"
  | .bool true => "True"
  | .bool false => "False"
  | .num n => toString n
  | .str s => "\x27" ++ s ++ "\x27"
  | .arr xs => "[" ++ pyReprList xs ++ "]"
  | .obj kvs => "\x7b" ++ pyReprFields kvs ++ "\x7d"

/-- Comma-separated reprs of the elements of a JSON array. -/
def pyReprList : List Json → String
  | [] => ""
  | [x] => pyRepr x
  | x :: xs => pyRepr x ++ ", " ++ pyReprList xs

/-- Comma-separated reprs of the fields of a JSON object. -/
def pyReprFields : List (String × Json) → String
  | [] => ""
  | [(k, v)] => "\x27" ++ k ++ "\x27: " ++ pyRepr v
  | (k, v) :: kvs => "\x27" ++ k ++ "\x27: " ++ pyRepr v ++ ", " ++ pyReprFields kvs

end

/-- Python `str` of a value parsed from JSON, as interpolated into f-strings. -/
def pyStr : Json → String
  | .str s => s
  | j => pyRepr j

/-- Python `s.strip()`: leading and trailing whitespace removed. -/
def pyStrip (s : String) : String :=
  String.mk (((s.data.dropWhile Char.isWhitespace).reverse.dropWhile Char.isWhitespace).reverse)

/-! ## test_client.py: send_request -/

/-- The request dictionary built by send_request in test_client.py: keys
jsonrpc, id and method always, params only when the params argument is
truthy (an absent or empty params adds no member). -/
def buildRequest (request_id : Int) (method : String) (params : Option Json) : Json :=
  Json.obj ([("jsonrpc", Json.str "2.0"), ("id", Json.num request_id), ("method", Json.str method)]
    ++ (match params with
        | some p => if p.truthy then [("params", p)] else []
        | none => []))

/-- Outcome of the read half of send_request: a returned value (none for an
empty line) or a raised json.JSONDecodeError. -/
inductive SendResult where
  | ret (response : Option Json)
  | exn

/-- The read half of send_request: strip the line read from the subprocess,
return None on an empty line, otherwise parse it (which may raise). The
parameter loads is the abstract behavior of json.loads on this run. -/
def parseLine (loads : String → Option Json) (raw : String) : SendResult :=
  let response_line := pyStrip raw
  if response_line == "" then SendResult.ret none
  else
    match loads response_line with
    | some j => SendResult.ret (some j)
    | none => SendResult.exn

/-- send_request: serialize the request built by buildRequest, write it, then
read one response line; returns the written request and the read outcome. -/
def send_request (loads : String → Option Json) (request_id : Int) (method : String)
    (params : Option Json) (raw : String) : Json × SendResult :=
  (buildRequest request_id method params, parseLine loads raw)

/-! ## test_client.py: the seven probe steps of main -/

/-- One printed per-step line of main in test_client.py: a pass or fail mark
and its message. -/
structure Report where
  passed : Bool
  detail : String
deriving DecidableEq

/-- Evaluation of the guard `if response and "result" in response` that opens
every step of main: it can raise, be false (step body skipped), or be true
(step body runs on the response). -/
inductive Gate where
  | raise
  | skipStep
  | proceed (j : Json)

/-- The guard of each step of main in test_client.py. -/
def gate : SendResult → Gate
  | .exn => .raise
  | .ret none => .skipStep
  | .ret (some j) =>
    if j.truthy then
      match pyContains j "result" with
      | none => .raise
      | some true => .proceed j
      | some false => .skipStep
    else .skipStep

/-- Step 1 (initialize) of main: the only step with an else branch; a guard
failure prints the Initialization failed line and execution continues. -/
def step1Body (sr : SendResult) : List Report × Bool :=
  match gate sr with
  | .raise => ([], false)
  | .skipStep => ([Report.mk false "Initialization failed"], true)
  | .proceed _ => ([Report.mk true "Initialization successful"], true)

/-- Element-wise part of the loop of steps 2 and 6: iterating the extracted
sequence and subscripting each entry with two keys completes without raising. -/
def iterFieldsOK (f1 f2 : String) : Json → Bool
  | .arr xs => xs.all (fun t => (pyIndexS t f1).isSome && (pyIndexS t f2).isSome)
  | .obj kvs => kvs.isEmpty
  | .str s => s.data.isEmpty
  | _ => false

/-- Step 2 (tools/list) of main: on a result response extract
result.tools, print the count, then print name and description per tool;
any raise aborts the run; a guard failure is silently skipped. -/
def step2Body (sr : SendResult) : List Report × Bool :=
  match gate sr with
  | .raise => ([], false)
  | .skipStep => ([], true)
  | .proceed j =>
    match (pyIndexS j "result").bind (fun r => pyIndexS r "tools") with
    | none => ([], false)
    | some tools =>
      match pyLen tools with
      | none => ([], false)
      | some n =>
        if iterFieldsOK "name" "description" tools then
          ([Report.mk true ("Found " ++ toString n ++ " tools")], true)
        else
          ([Report.mk true ("Found " ++ toString n ++ " tools")], false)

/-- Extraction `response["result"]["content"][0]["text"]` shared by steps 3,
4 and 5 of main. -/
def contentOf (j : Json) : Option Json :=
  ((pyIndexS j "result").bind (fun r => pyIndexS r "content")).bind
    (fun c => (pyIndexN c 0).bind (fun e => pyIndexS e "text"))

/-- Step 3 (tools/call echo) of main: on a result response extract the text
and print it; the printed text is never compared with the sent text. -/
def step3Body (sr : SendResult) : List Report × Bool :=
  match gate sr with
  | .raise => ([], false)
  | .skipStep => ([], true)
  | .proceed j =>
    match contentOf j with
    | none => ([], false)
    | some c => ([Report.mk true ("Echo result: " ++ pyStr c)], true)

/-- Step 4 (tools/call calculate) of main: same shape as step 3. -/
def step4Body (sr : SendResult) : List Report × Bool :=
  match gate sr with
  | .raise => ([], false)
  | .skipStep => ([], true)
  | .proceed j =>
    match contentOf j with
    | none => ([], false)
    | some c => ([Report.mk true ("Calculate result: " ++ pyStr c)], true)

/-- Step 5 (tools/call system_info) of main: prints the retrieved mark, then
evaluates `content[:200] + "..." if len(content) > 200 else content`, whose
length test and slicing can raise after the mark was printed. -/
def step5Body (sr : SendResult) : List Report × Bool :=
  match gate sr with
  | .raise => ([], false)
  | .skipStep => ([], true)
  | .proceed j =>
    match contentOf j with
    | none => ([], false)
    | some c =>
      match pyLen c with
      | none => ([Report.mk true "System info retrieved:"], false)
      | some n =>
        if n > 200 then
          match c with
          | .str _ => ([Report.mk true "System info retrieved:"], true)
          | _ => ([Report.mk true "System info retrieved:"], false)
        else ([Report.mk true "System info retrieved:"], true)

/-- Step 6 (resources/list) of main: like step 2 with result.resources and
the fields uri and name. -/
def step6Body (sr : SendResult) : List Report × Bool :=
  match gate sr with
  | .raise => ([], false)
  | .skipStep => ([], true)
  | .proceed j =>
    match (pyIndexS j "result").bind (fun r => pyIndexS r "resources") with
    | none => ([], false)
    | some resources =>
      match pyLen resources with
      | none => ([], false)
      | some n =>
        if iterFieldsOK "uri" "name" resources then
          ([Report.mk true ("Found " ++ toString n ++ " resources")], true)
        else
          ([Report.mk true ("Found " ++ toString n ++ " resources")], false)

/-- Step 7 (resources/read) of main: extract result.contents[0].text, parse
it again with json.loads (raising on a non-string or unparsable content),
then print its name and version fields (raising when either is missing). -/
def step7Body (loads : String → Option Json) (sr : SendResult) : List Report × Bool :=
  match gate sr with
  | .raise => ([], false)
  | .skipStep => ([], true)
  | .proceed j =>
    match ((pyIndexS j "result").bind (fun r => pyIndexS r "contents")).bind
        (fun c => (pyIndexN c 0).bind (fun e => pyIndexS e "text")) with
    | none => ([], false)
    | some c =>
      match c with
      | .str s =>
        match loads s with
        | none => ([], false)
        | some config =>
          match pyIndexS config "name", pyIndexS config "version" with
          | some nm, some ver =>
            ([Report.mk true ("Config retrieved: " ++ pyStr nm ++ " v" ++ pyStr ver)], true)
          | _, _ => ([], false)
      | _ => ([], false)

/-- Params of the initialize request of step 1. -/
def step1Params : Json :=
  Json.obj [("capabilities", Json.obj []),
            ("clientInfo", Json.obj [("name", Json.str "test-client"), ("version", Json.str "1.0.0")])]

/-- Params of the tools/call echo request of step 3. -/
def step3Params : Json :=
  Json.obj [("name", Json.str "echo"), ("arguments", Json.obj [("text", Json.str "Hello, MCP!")])]

/-- Params of the tools/call calculate request of step 4. -/
def step4Params : Json :=
  Json.obj [("name", Json.str "calculate"),
            ("arguments", Json.obj [("operation", Json.str "add"), ("a", Json.num 15), ("b", Json.num 27)])]

/-- Params of the tools/call system_info request of step 5. -/
def step5Params : Json :=
  Json.obj [("name", Json.str "system_info"), ("arguments", Json.obj [])]

/-- Params of the resources/read request of step 7. -/
def step7Params : Json :=
  Json.obj [("uri", Json.str "config://server")]

/-- The fixed script of main: request id, method, params, and step body, in
execution order. -/
def stepsOf (loads : String → Option Json) :
    List (Int × String × Option Json × (SendResult → List Report × Bool)) :=
  [(1, "initialize", some step1Params, step1Body),
   (2, "tools/list", none, step2Body),
   (3, "tools/call", some step3Params, step3Body),
   (4, "tools/call", some step4Params, step4Body),
   (5, "tools/call", some step5Params, step5Body),
   (6, "resources/list", none, step6Body),
   (7, "resources/read", some step7Params, step7Body loads)]

/-- Observable outcome of one run of main in test_client.py: the requests
written to the subprocess in order, the per-step report lines printed, and
whether an exception reached the top-level handler. -/
structure RunResult where
  sent : List Json
  recs : List Report
  aborted : Bool

/-- The step loop of main: each step is one send_request call, written out
as its write half (buildRequest) and its read half (parseLine); a step body
that raises sends the run to the top-level handler, aborting every
remaining step. -/
def runSteps (loads : String → Option Json) (lines : Nat → String) :
    List (Int × String × Option Json × (SendResult → List Report × Bool)) → Nat → RunResult
  | [], _ => ⟨[], [], false⟩
  | (i, m, p, body) :: rest, k =>
    match body (parseLine loads (lines k)) with
    | (rs, true) =>
      let r := runSteps loads lines rest (k + 1)
      ⟨buildRequest i m p :: r.sent, rs ++ r.recs, r.aborted⟩
    | (rs, false) => ⟨[buildRequest i m p], rs, true⟩

/-- One run of main in test_client.py over an abstract json.loads behavior
and the sequence of raw lines produced by the subprocess. -/
def runMain (loads : String → Option Json) (lines : Nat → String) : RunResult :=
  runSteps loads lines (stepsOf loads) 0

/-- Subprocess disposal actions taken on an exit path: whether a termination
signal was sent and whether the process was waited on. -/
structure Cleanup where
  signaled : Bool
  waited : Bool
deriving DecidableEq

/-- main of test_client.py: the step loop inside try, every exception caught
by the except clause, and a finally clause that always calls terminate and
wait; the script never calls sys.exit, so the process exit code is 0. -/
def testClientRun (loads : String → Option Json) (lines : Nat → String) :
    RunResult × Cleanup × Nat :=
  (runMain loads lines, Cleanup.mk true true, 0)

/-- The serialized initialize request of step 1. -/
def step1Request : Json := buildRequest 1 "initialize" (some step1Params)

/-- The serialized tools/list request of step 2. -/
def step2Request : Json := buildRequest 2 "tools/list" none

/-! ## verify_config.py -/

/-- Outcome of opening and json.load-ing the configuration file. -/
inductive ConfigLoad where
  | openFails
  | parseError
  | ok (config : Json)

/-- Structured outcome of check_config_file, one constructor per distinct
printed diagnosis; the function of the script returns True exactly on ok. -/
inductive CheckResult where
  | missing
  | invalid
  | readError
  | noKey
  | execMissing (p : String)
  | notExecutable (p : String)
  | ok (p : String)

/-- The fixed configuration file location, os.path.expanduser applied to
the literal of the script. -/
def configPath (home : String) : String := home ++ "/.claude-code/mcp_servers.json"

/-- check_config_file of verify_config.py: existence of the file, JSON
parse, the basic-mcp-server key, the command field, and existence and
execute permission of the command path; every raise inside the try is
caught and mapped to a False return (json.JSONDecodeError separately). -/
def check_config_file (home : String) (fileExists isExecutable : String → Bool)
    (load : ConfigLoad) : CheckResult :=
  if fileExists (configPath home) then
    match load with
    | .openFails => .readError
    | .parseError => .invalid
    | .ok config =>
      match pyContains config "basic-mcp-server" with
      | none => .readError
      | some false => .noKey
      | some true =>
        match pyIndexS config "basic-mcp-server" with
        | none => .readError
        | some server_config =>
          match pyGet server_config "command" with
          | none => .readError
          | some command_path =>
            match command_path with
            | some (.str p) =>
              if fileExists p then
                if isExecutable p then .ok p else .notExecutable p
              else .execMissing p
            | _ => .readError
  else .missing

/-- The boolean actually returned by check_config_file. -/
def configOk (home : String) (fileExists isExecutable : String → Bool)
    (load : ConfigLoad) : Bool :=
  match check_config_file home fileExists isExecutable load with
  | .ok _ => true
  | _ => false

/-- Outcome of the spawn plus communicate call of test_server: a completed
exchange with exit code and captured streams, a timeout, a FileNotFoundError
at spawn, or another exception raised after spawn. -/
inductive ServerOutcome where
  | completed (returncode : Int) (stdout : String) (stderr : String)
  | timedOut
  | spawnFails
  | commRaises

/-- The argv test_server passes to subprocess.Popen: the fixed relative path,
not a path taken from the configuration file. -/
def testServerArgv : List String := ["./mcp-server"]

/-- The single initialize request line test_server writes to the subprocess. -/
def testServerInput : String :=
  "\x7b\"jsonrpc\": \"2.0\", \"id\": 1, \"method\": \"initialize\", \"params\": \x7b\"capabilities\": \x7b\x7d\x7d\x7d\n"

/-- test_server of verify_config.py: communicate waits for the exchange;
success iff the exit code is 0 or stdout is non-empty; a TimeoutExpired is
answered by kill without wait and counts as success; a FileNotFoundError at
spawn or any other exception yields failure with no disposal action. -/
def test_server : ServerOutcome → Bool × Cleanup
  | .completed returncode stdout _ => ((returncode == 0) || !(stdout == ""), Cleanup.mk false true)
  | .timedOut => (true, Cleanup.mk true false)
  | .spawnFails => (false, Cleanup.mk false false)
  | .commRaises => (false, Cleanup.mk false false)

/-- main of verify_config.py: run both checks unconditionally, exit 0 when
both pass and sys.exit(1) otherwise. -/
def verifyMain (home : String) (fileExists isExecutable : String → Bool)
    (load : ConfigLoad) (outcome : ServerOutcome) : Nat :=
  if configOk home fileExists isExecutable load && (test_server outcome).fst then 0 else 1

/-! ## Concrete environments used by counterexamples and witnesses -/

/-- A parsed response carrying no result member. -/
def noResultResp : Json := Json.obj [("id", Json.num 1)]

/-- A parsed response carrying a result member. -/
def okInitResp : Json := Json.obj [("result", Json.obj [("serverInfo", Json.null)])]

/-- json.loads behavior mapping the line noresult to a response without a
result member. -/
def loadsA : String → Option Json := fun s => if s == "noresult" then some noResultResp else none

/-- Subprocess output: every line is noresult. -/
def linesA : Nat → String := fun _ => "noresult"

/-- json.loads behavior mapping the line okinit to a passing initialize
response and refusing every other line. -/
def loadsB : String → Option Json := fun s => if s == "okinit" then some okInitResp else none

/-- Subprocess output: a passing initialize line, then only empty lines. -/
def linesB : Nat → String := fun k => if k == 0 then "okinit" else ""

/-- Subprocess output: a passing initialize line, then a line json.loads
refuses. -/
def linesC : Nat → String := fun k => if k == 0 then "okinit" else "badjson"

/-- A configuration whose command field names a server path distinct from
the one test_server spawns. -/
def cfg3 : Json := Json.obj [("basic-mcp-server", Json.obj [("command", Json.str "/opt/other-server")])]

/-- A filesystem on which the configuration file and the configured command
both exist (and the command is executable). -/
def fe3 : String → Bool :=
  fun p => (p == "/root/.claude-code/mcp_servers.json") || (p == "/opt/other-server")

/-- A well-formed echo response whose result.content[0].text is t. -/
def echoResp (t : String) : Json :=
  Json.obj [("result", Json.obj [("content", Json.arr [Json.obj [("text", Json.str t)]])])]


/-! ## Helper lemmas about the step loop -/

/-- Unfolding of the step loop when the head step continues. -/
theorem runSteps_cons_cont {loads : String → Option Json} {lines : Nat → String}
    {i : Int} {m : String} {p : Option Json} {body : SendResult → List Report × Bool}
    {rest : List (Int × String × Option Json × (SendResult → List Report × Bool))}
    {k : Nat} {rs : List Report}
    (h : body (parseLine loads (lines k)) = (rs, true)) :
    runSteps loads lines ((i, m, p, body) :: rest) k =
      ⟨buildRequest i m p :: (runSteps loads lines rest (k + 1)).sent,
       rs ++ (runSteps loads lines rest (k + 1)).recs,
       (runSteps loads lines rest (k + 1)).aborted⟩ := by
  simp only [runSteps, h]

/-- Unfolding of the step loop when the head step raises. -/
theorem runSteps_cons_abort {loads : String → Option Json} {lines : Nat → String}
    {i : Int} {m : String} {p : Option Json} {body : SendResult → List Report × Bool}
    {rest : List (Int × String × Option Json × (SendResult → List Report × Bool))}
    {k : Nat} {rs : List Report}
    (h : body (parseLine loads (lines k)) = (rs, false)) :
    runSteps loads lines ((i, m, p, body) :: rest) k = ⟨[buildRequest i m p], rs, true⟩ := by
  simp only [runSteps, h]

/-! ## Claim theorems -/

/-- Claim C1 (amended): when the first probe step fails without raising (the
response is absent, empty, or lacks a result member), the failure is
recorded as the Initialization failed line but the probe does NOT abort: the
step 2 request is still sent. Only a raised exception aborts the sequence. -/
theorem c1_amended (loads : String → Option Json) (lines : Nat → String)
    (h : gate (parseLine loads (lines 0)) = Gate.skipStep) :
    (∃ t, (runMain loads lines).sent = step1Request :: step2Request :: t) ∧
      Report.mk false "Initialization failed" ∈ (runMain loads lines).recs := by
  have h1 : step1Body (parseLine loads (lines 0)) = ([Report.mk false "Initialization failed"], true) := by
    simp only [step1Body, h]
  unfold runMain stepsOf
  rw [runSteps_cons_cont h1]
  rcases h2 : step2Body (parseLine loads (lines (0 + 1))) with ⟨rs2, b2⟩
  cases b2
  · rw [runSteps_cons_abort h2]
    exact ⟨⟨_, rfl⟩, by simp⟩
  · rw [runSteps_cons_cont h2]
    exact ⟨⟨_, rfl⟩, by simp⟩

/-- Claim C1 counterexample: a run in which every response parses to an
object without a result member. Step 1 does not pass (the only printed
report is the Initialization failed line), yet all seven requests are sent,
refuting the claim that a failed initialize aborts the remaining six steps. -/
theorem c1_counterexample :
    (runMain loadsA linesA).recs = [Report.mk false "Initialization failed"] ∧
      (runMain loadsA linesA).sent.length = 7 := ⟨rfl, rfl⟩

/-- Witness for c1_amended at the concrete run loadsA, linesA. -/
theorem c1_witness :
    gate (parseLine loadsA (linesA 0)) = Gate.skipStep ∧
      ((∃ t, (runMain loadsA linesA).sent = step1Request :: step2Request :: t) ∧
        Report.mk false "Initialization failed" ∈ (runMain loadsA linesA).recs) :=
  ⟨rfl, c1_amended loadsA linesA rfl⟩

/-- Claim C2 (amended): in the server handshake of the ConfigAuditor a
receive timeout is a soft pass, but a completed exchange is a hard failure
only when the exit code is nonzero AND the captured stdout is empty; an exit
code of 0, or any captured output, is classified as success, so an immediate
exit with no output is NOT a failure for every exit code. -/
theorem c2_amended :
    (∀ (rc : Int) (out err : String),
        ((test_server (ServerOutcome.completed rc out err)).fst = true ↔ (rc = 0 ∨ out ≠ ""))) ∧
      (test_server ServerOutcome.timedOut).fst = true := by
  constructor
  · intro rc out err
    simp [test_server]
  · rfl

/-- Claim C2 counterexample: a subprocess that exits immediately with exit
code 0 and no captured output is classified as success by test_server, not
as the hard failure the claim requires for every exit code. -/
theorem c2_counterexample : (test_server (ServerOutcome.completed 0 "" "")).fst = true := rfl

/-- Claim C3 (amended): even on a run where check_config_file extracted,
existence-checked and permission-checked the command path p of the
configuration file, the handshake of test_server spawns the fixed relative
path ./mcp-server, not p, and writes its subprocess exactly one request
line. -/
theorem c3_amended (home : String) (fileExists isExecutable : String → Bool)
    (load : ConfigLoad) (p : String)
    (h : check_config_file home fileExists isExecutable load = CheckResult.ok p) :
    testServerArgv = ["./mcp-server"] ∧ testServerInput.toList.count (Char.ofNat 10) = 1 :=
  ⟨rfl, by decide⟩

/-- Claim C3 counterexample: a configuration whose command field is
/opt/other-server passes every check of check_config_file, yet the
handshake spawns ./mcp-server, a different path, refuting the claim that
the handshake spawns exactly the checked executable path. -/
theorem c3_counterexample :
    check_config_file "/root" fe3 fe3 (ConfigLoad.ok cfg3) = CheckResult.ok "/opt/other-server" ∧
      testServerArgv = ["./mcp-server"] ∧ ("/opt/other-server" : String) ≠ "./mcp-server" :=
  ⟨rfl, rfl, by decide⟩

/-- Witness for c3_amended at the concrete configuration cfg3. -/
theorem c3_witness :
    check_config_file "/root" fe3 fe3 (ConfigLoad.ok cfg3) = CheckResult.ok "/opt/other-server" ∧
      (testServerArgv = ["./mcp-server"] ∧ testServerInput.toList.count (Char.ofNat 10) = 1) :=
  ⟨rfl, c3_amended "/root" fe3 fe3 (ConfigLoad.ok cfg3) "/opt/other-server" rfl⟩

/-- Claim C4 (amended): only the initialize step produces a per-step failure
report. For every non-initialize step a failed response that does not raise
(absent, empty, or lacking a result member) produces NO report at all: the
step body is silently skipped and execution continues. -/
theorem c4_amended (loads : String → Option Json) (sr : SendResult)
    (h : gate sr = Gate.skipStep) :
    step1Body sr = ([Report.mk false "Initialization failed"], true) ∧
      step2Body sr = ([], true) ∧ step3Body sr = ([], true) ∧ step4Body sr = ([], true) ∧
      step5Body sr = ([], true) ∧ step6Body sr = ([], true) ∧ step7Body loads sr = ([], true) := by
  refine ⟨?_, ?_, ?_, ?_, ?_, ?_, ?_⟩ <;>
    simp [step1Body, step2Body, step3Body, step4Body, step5Body, step6Body, step7Body, h]

/-- Claim C4 counterexample: a run where step 1 passes and every later step
receives an empty line (the EmptyResponse condition). All seven requests are
sent and the run is not aborted, yet the only printed report is the step 1
success line: the six failing steps produce no failure record, refuting the
claim that no step failure goes unreported. -/
theorem c4_counterexample :
    (runMain loadsB linesB).sent.length = 7 ∧
      (runMain loadsB linesB).recs = [Report.mk true "Initialization successful"] ∧
      (runMain loadsB linesB).aborted = false := ⟨rfl, rfl, rfl⟩

/-- Witness for c4_amended at the concrete response SendResult.ret none. -/
theorem c4_witness :
    gate (SendResult.ret none) = Gate.skipStep ∧
      (step1Body (SendResult.ret none) = ([Report.mk false "Initialization failed"], true) ∧
        step2Body (SendResult.ret none) = ([], true) ∧
        step3Body (SendResult.ret none) = ([], true) ∧
        step4Body (SendResult.ret none) = ([], true) ∧
        step5Body (SendResult.ret none) = ([], true) ∧
        step6Body (SendResult.ret none) = ([], true) ∧
        step7Body (fun _ => none) (SendResult.ret none) = ([], true)) :=
  ⟨rfl, c4_amended (fun _ => none) (SendResult.ret none) rfl⟩

/-- Claim C5 (amended): a parse error on a non-initialize step (here step 2)
is NOT converted into that step report; the raised exception escapes to
the top-level handler, aborting every remaining step: exactly two requests
are sent, the run is aborted, and the reports are exactly those of step 1. -/
theorem c5_amended (loads : String → Option Json) (lines : Nat → String)
    (h1 : (step1Body (parseLine loads (lines 0))).snd = true)
    (h2 : parseLine loads (lines 1) = SendResult.exn) :
    (runMain loads lines).sent.length = 2 ∧ (runMain loads lines).aborted = true ∧
      (runMain loads lines).recs = (step1Body (parseLine loads (lines 0))).fst := by
  rcases hb : step1Body (parseLine loads (lines 0)) with ⟨rs1, b1⟩
  rw [hb] at h1
  simp only at h1
  subst h1
  have h2x : parseLine loads (lines (0 + 1)) = SendResult.exn := h2
  have hb2 : step2Body (parseLine loads (lines (0 + 1))) = ([], false) := by
    rw [h2x]; rfl
  unfold runMain stepsOf
  rw [runSteps_cons_cont hb, runSteps_cons_abort hb2]
  simp [hb]

/-- Claim C5 counterexample: a run whose step 2 line is not well-formed
JSON. Steps 3 to 7 are never executed (only two requests are sent), the run
is aborted to the top-level handler, and no step 2 failure report exists,
refuting the claim that a ParseError is recovered locally and recorded. -/
theorem c5_counterexample :
    (runMain loadsB linesC).sent.length = 2 ∧
      (runMain loadsB linesC).recs = [Report.mk true "Initialization successful"] ∧
      (runMain loadsB linesC).aborted = true := ⟨rfl, rfl, rfl⟩

/-- Witness for c5_amended at the concrete run loadsB, linesC. -/
theorem c5_witness :
    ((step1Body (parseLine loadsB (linesC 0))).snd = true ∧
        parseLine loadsB (linesC 1) = SendResult.exn) ∧
      ((runMain loadsB linesC).sent.length = 2 ∧ (runMain loadsB linesC).aborted = true ∧
        (runMain loadsB linesC).recs = (step1Body (parseLine loadsB (linesC 0))).fst) :=
  ⟨⟨rfl, rfl⟩, c5_amended loadsB linesC rfl rfl⟩

/-- Claim C6 (amended): every request the harness serializes is a JSON
object whose version member is named jsonrpc, not protocolVersion, with
value 2.0, alongside an integer id and a method string. -/
theorem c6_amended (request_id : Int) (method : String) (params : Option Json) :
    pyIndexS (buildRequest request_id method params) "jsonrpc" = some (Json.str "2.0") ∧
      pyIndexS (buildRequest request_id method params) "id" = some (Json.num request_id) ∧
      pyIndexS (buildRequest request_id method params) "method" = some (Json.str method) :=
  ⟨rfl, rfl, rfl⟩

/-- Claim C6 counterexample: the serialized initialize request of step 1
carries no member named protocolVersion at all. -/
theorem c6_counterexample :
    pyIndexS (buildRequest 1 "initialize" (some step1Params)) "protocolVersion" = none := rfl

/-- Claim C7: the config-verification program exits 0 iff both the
configuration check and the server handshake check pass (and 1 otherwise),
while the protocol probe always exits 0, so its per-step failures never by
themselves cause a non-zero exit. -/
theorem c7_confirmed :
    (∀ (home : String) (fileExists isExecutable : String → Bool) (load : ConfigLoad)
        (outcome : ServerOutcome),
        verifyMain home fileExists isExecutable load outcome = 0 ↔
          (configOk home fileExists isExecutable load = true ∧ (test_server outcome).fst = true)) ∧
      (∀ (loads : String → Option Json) (lines : Nat → String),
        (testClientRun loads lines).snd.snd = 0) := by
  constructor
  · intro home fe ex load outcome
    cases hc : configOk home fe ex load <;> cases hs : (test_server outcome).fst <;>
      simp [verifyMain, hc, hs]
  · intro loads lines
    rfl

/-- Claim C8 (amended): the echo step passes for EVERY response text t that
is reachable at result.content[0].text; the harness prints the text but
never compares it with the sent input, so passing does not require the text
to equal Hello, MCP!. -/
theorem c8_amended (t : String) :
    step3Body (SendResult.ret (some (echoResp t))) =
      ([Report.mk true ("Echo result: " ++ t)], true) := rfl

/-- Claim C8 counterexample: a response whose echoed text is Goodbye, which
differs from the sent text Hello, MCP!, is still recorded as a pass,
refuting the claim that the step passes only on exact equality. -/
theorem c8_counterexample :
    step3Body (SendResult.ret (some (echoResp "Goodbye"))) =
        ([Report.mk true "Echo result: Goodbye"], true) ∧
      ("Goodbye" : String) ≠ "Hello, MCP!" := ⟨rfl, by decide⟩

/-- Claim C9 (amended): the protocol probe signals and waits on every exit
path (its finally clause), but the handshake of the ConfigAuditor does not:
its completed path waits (inside communicate) without sending a signal, its
timeout path kills without waiting, and a non-timeout exception after spawn
neither signals nor waits. -/
theorem c9_amended :
    (∀ (loads : String → Option Json) (lines : Nat → String),
        (testClientRun loads lines).snd.fst = Cleanup.mk true true) ∧
      (test_server ServerOutcome.timedOut).snd = Cleanup.mk true false ∧
      (∀ (rc : Int) (out err : String),
        (test_server (ServerOutcome.completed rc out err)).snd = Cleanup.mk false true) ∧
      (test_server ServerOutcome.commRaises).snd = Cleanup.mk false false :=
  ⟨fun _ _ => rfl, rfl, fun _ _ _ => rfl, rfl⟩

/-- Claim C9 counterexample: on the timeout exit path of the handshake the
subprocess is killed but never waited on, refuting the claim that every
exit path both signals and waits. -/
theorem c9_counterexample :
    (test_server ServerOutcome.timedOut).snd.signaled = true ∧
      (test_server ServerOutcome.timedOut).snd.waited = false := ⟨rfl, rfl⟩

/-- Claim C10: send_request includes a params member iff the params argument
is truthy; an explicit empty object behaves exactly like an absent argument
and yields a request with no params member. -/
theorem c10_confirmed (request_id : Int) (method : String) (p : Json) :
    (pyIndexS (buildRequest request_id method (some p)) "params").isSome = p.truthy ∧
      pyIndexS (buildRequest request_id method (some (Json.obj []))) "params" = none ∧
      pyIndexS (buildRequest request_id method none) "params" = none ∧
      buildRequest request_id method (some (Json.obj [])) = buildRequest request_id method none := by
  refine ⟨?_, rfl, rfl, rfl⟩
  cases hp : p.truthy <;> simp [buildRequest, pyIndexS, hp, List.lookup]

end McpHarness
